import Mathlib

/-!
Verification of the GAIA-agent pipeline repository: a shallow embedding of
src/main.py, src/gaia_agent/api.py, src/gaia_agent/agent.py and
src/gaia_agent/tools.py, with theorems settling the specification claims.

External effects (HTTP responses, the LLM agent loop, the filesystem) are
modelled as explicit input values; Python exceptions are modelled with
explicit error constructors.
-/

/-- A fetched question, as returned by the question endpoint:
a dict with keys task_id and question. -/
structure Question where
  task_id : String
  question : String
deriving DecidableEq

/-- An answer record as assembled by answer_questions in src/main.py:
a dict with keys task_id, submitted_answer, reasoning_trace. -/
structure Answer where
  task_id : String
  submitted_answer : String
  reasoning_trace : String
deriving DecidableEq

/-- The orchestrator answer_questions from src/main.py (lines 34-48): iterates
the fetched questions in order, calls the agent runner on each question text
(with capture of the reasoning process), and appends one answer record per
question. The agent runner is abstracted as a function from the query string
to the pair (response, reasoning_process) it returns on completion. -/
def answer_questions (run : String → String × String) : List Question → List Answer
  | [] => []
  | q :: qs =>
      { task_id := q.task_id,
        submitted_answer := (run q.question).1,
        reasoning_trace := (run q.question).2 } :: answer_questions run qs

/-- A Python value bound to the name answers in the entry point of
src/main.py: either an evaluated list of answer records, or the coroutine
object produced by calling an async function without awaiting it (the
coroutine wraps the computation that awaiting it would have run). -/
inductive PySubmitted where
  | answerList (xs : List Answer)
  | coroutine (pending : List Answer)
deriving DecidableEq

/-- The value the entry point of src/main.py (lines 51-66) binds to answers
and passes to submit_answers: main calls the async function answer_questions
with no await and no asyncio event loop, so the bound value is the un-awaited
coroutine object, not the evaluated answer list. -/
def main_answers_value (run : String → String × String) (qs : List Question) :
    PySubmitted :=
  PySubmitted.coroutine (answer_questions run qs)

theorem answer_questions_map_task_id (run : String → String × String) :
    ∀ qs : List Question,
      (answer_questions run qs).map Answer.task_id = qs.map Question.task_id
  | [] => rfl
  | _ :: qs => by
      simp [answer_questions, answer_questions_map_task_id run qs]

theorem answer_questions_length (run : String → String × String) :
    ∀ qs : List Question, (answer_questions run qs).length = qs.length
  | [] => rfl
  | _ :: qs => by
      simp [answer_questions, answer_questions_length run qs]

/-- Claim C1: the entry point of src/main.py binds answers to the result of
calling the async orchestrator without awaiting it, so the value consumed by
submit_answers is the un-awaited coroutine object and not the evaluated
ordered list of answer records; evaluated at a concrete one-question run. -/
theorem main_passes_unawaited_coroutine_to_submit :
    main_answers_value (fun q => (q, "")) [{ task_id := "T1", question := "Q1" }] =
      PySubmitted.coroutine
        (answer_questions (fun q => (q, "")) [{ task_id := "T1", question := "Q1" }]) ∧
    main_answers_value (fun q => (q, "")) [{ task_id := "T1", question := "Q1" }] ≠
      PySubmitted.answerList
        (answer_questions (fun q => (q, "")) [{ task_id := "T1", question := "Q1" }]) :=
  ⟨rfl, by decide⟩

/-- Claim C2: for every non-empty fetched question list, answer_questions
produces exactly one answer record per question, in fetch order, with the
i-th answer record carrying the i-th question's task_id (stated as equality
of lengths and of the task_id projections of the two lists). -/
theorem answer_questions_one_per_question_in_order
    (run : String → String × String) (qs : List Question) (h : qs ≠ []) :
    (answer_questions run qs).length = qs.length ∧
    (answer_questions run qs).map Answer.task_id = qs.map Question.task_id :=
  ⟨answer_questions_length run qs, answer_questions_map_task_id run qs⟩

/-- Claim C2 witness: the property instantiated at a concrete two-question
list with a concrete agent runner. -/
theorem answer_questions_one_per_question_in_order_witness :
    ([⟨"T1", "Q1"⟩, ⟨"T2", "Q2"⟩] : List Question) ≠ [] ∧
    ((answer_questions (fun q => (q, "trace")) [⟨"T1", "Q1"⟩, ⟨"T2", "Q2"⟩]).length =
        ([⟨"T1", "Q1"⟩, ⟨"T2", "Q2"⟩] : List Question).length ∧
      (answer_questions (fun q => (q, "trace")) [⟨"T1", "Q1"⟩, ⟨"T2", "Q2"⟩]).map
          Answer.task_id =
        ([⟨"T1", "Q1"⟩, ⟨"T2", "Q2"⟩] : List Question).map Question.task_id) :=
  ⟨List.cons_ne_nil _ _,
    answer_questions_one_per_question_in_order (fun q => (q, "trace"))
      [⟨"T1", "Q1"⟩, ⟨"T2", "Q2"⟩] (List.cons_ne_nil _ _)⟩

/-- An attachment body: a raw byte sequence, each byte a Nat below 256. -/
abbrev Bytes := List Nat

/-- The static task_id to filename table hardcoded in
download_questions_and_files in src/main.py, in dict-literal insertion
order. -/
def file_names : List (String × String) :=
  [("cca530fc-4052-43b2-b130-b30968d8aa44", "chess_position.jpg"),
   ("99c9cc74-fdc8-46c6-8f8d-3ce2d3bfeea3", "Strawberry pie.mp3"),
   ("f918266a-b3e0-4914-865d-4faa564f1aef", "python_code.py"),
   ("1f975693-876d-457b-a649-393859e79bf3", "Homework.mp3"),
   ("7bd855d8-463d-4ed5-93ca-5fe35145f733", "menu_items.xlsx")]

/-- Exceptions the materialization loop of download_questions_and_files can
raise: a dict lookup on a task_id that was never fetched (KeyError), or
writing a None attachment to a binary file (TypeError from f.write(None)). -/
inductive MatError where
  | keyError (task_id : String)
  | typeError
deriving DecidableEq

/-- Lookup in the files dict built by download_questions_and_files: the dict
maps each fetched task_id to the get_file result, which is the attachment
bytes or Python None (modelled Option Bytes); a missing key yields none. -/
def lookupDict (files : List (String × Option Bytes)) (k : String) :
    Option (Option Bytes) :=
  match files with
  | [] => none
  | (k2, v) :: rest => if k2 = k then some v else lookupDict rest k

/-- One pass of the materialization loop in download_questions_and_files
(src/main.py lines 24-29) over a task_id-to-filename table: for each entry it
evaluates files[task_id] (KeyError if the task_id was not fetched) and writes
the bytes to files/<filename> (TypeError if the stored value is None). The
result is the ordered list of (filename, bytes) writes performed, or the
exception that aborts the loop. -/
def materializeGo (files : List (String × Option Bytes)) :
    List (String × String) → Except MatError (List (String × Bytes))
  | [] => Except.ok []
  | (tid, fname) :: rest =>
      match lookupDict files tid with
      | none => Except.error (MatError.keyError tid)
      | some none => Except.error MatError.typeError
      | some (some bs) =>
          match materializeGo files rest with
          | Except.ok ws => Except.ok ((fname, bs) :: ws)
          | Except.error e => Except.error e

/-- The file materializer: the second loop of download_questions_and_files,
run over the full hardcoded file_names table. -/
def materialize (files : List (String × Option Bytes)) :
    Except MatError (List (String × Bytes)) :=
  materializeGo files file_names

/-- Whether the files dict holds a present (non-None) attachment for a
task_id. -/
def present (files : List (String × Option Bytes)) (tid : String) : Bool :=
  match lookupDict files tid with
  | some (some _) => true
  | _ => false

/-- The attachment bytes stored for a task_id (defaulting to [] when absent;
only used under a presence hypothesis). -/
def bytesOf (files : List (String × Option Bytes)) (tid : String) : Bytes :=
  match lookupDict files tid with
  | some (some bs) => bs
  | _ => []

/-- Whether a materialization run completed without raising. -/
def matCompleted (r : Except MatError (List (String × Bytes))) : Bool :=
  match r with
  | Except.ok _ => true
  | Except.error _ => false

/-- The files dict for the scenario of claim C3: three fetched questions T1,
T2, T3, of which only T2 has a present attachment. -/
def scenario_files : List (String × Option Bytes) :=
  [("T1", none), ("T2", some [1, 2, 3]), ("T3", none)]

theorem materializeGo_all_present (files : List (String × Option Bytes)) :
    ∀ l : List (String × String), (∀ p ∈ l, present files p.1 = true) →
      materializeGo files l = Except.ok (l.map fun p => (p.2, bytesOf files p.1))
  | [], _ => rfl
  | (tid, fname) :: rest, h => by
      have hp : present files tid = true := h (tid, fname) (List.mem_cons_self _ _)
      have hrest := materializeGo_all_present files rest
        (fun p hm => h p (List.mem_cons_of_mem _ hm))
      unfold present at hp
      cases hl : lookupDict files tid with
      | none => rw [hl] at hp; simp at hp
      | some ob =>
        cases ob with
        | none => rw [hl] at hp; simp at hp
        | some bs =>
          simp [materializeGo, hl, hrest, bytesOf]

theorem materializeGo_missing (files : List (String × Option Bytes)) :
    ∀ l : List (String × String), (∃ p ∈ l, present files p.1 = false) →
      ∃ e, materializeGo files l = Except.error e
  | (tid, fname) :: rest, h => by
      cases hl : lookupDict files tid with
      | none => exact ⟨MatError.keyError tid, by simp [materializeGo, hl]⟩
      | some ob =>
        cases ob with
        | none => exact ⟨MatError.typeError, by simp [materializeGo, hl]⟩
        | some bs =>
          obtain ⟨p, hp, hbad⟩ := h
          rcases List.mem_cons.mp hp with heq | hm
          · subst heq
            unfold present at hbad
            rw [hl] at hbad
            simp at hbad
          · obtain ⟨e, he⟩ := materializeGo_missing files rest ⟨p, hm, hbad⟩
            exact ⟨e, by simp [materializeGo, hl, he]⟩

/-- Claim C3 counterexample: in the three-question scenario with only T2's
attachment present, the materialization loop does not skip and complete; it
raises a KeyError on the first hardcoded task_id (which was never fetched)
and performs no write at all. -/
theorem materializer_scenario_counterexample :
    materialize scenario_files =
      Except.error (MatError.keyError "cca530fc-4052-43b2-b130-b30968d8aa44") ∧
    matCompleted (materialize scenario_files) = false := by
  exact ⟨rfl, rfl⟩

/-- Claim C3 as amended: the materializer iterates its static five-entry
table unconditionally; when every mapped task_id was fetched with a present
attachment it completes, writing exactly the five mapped filenames with their
stored bytes in table order, and when any mapped task_id is unfetched or its
attachment absent the loop raises (KeyError or TypeError) instead of
skipping. -/
theorem materialize_all_or_raise (files : List (String × Option Bytes)) :
    ((∀ p ∈ file_names, present files p.1 = true) →
      materialize files =
        Except.ok (file_names.map fun p => (p.2, bytesOf files p.1))) ∧
    ((∃ p ∈ file_names, present files p.1 = false) →
      ∃ e, materialize files = Except.error e) :=
  ⟨fun h => materializeGo_all_present files file_names h,
   fun h => materializeGo_missing files file_names h⟩

/-- A files dict in which every hardcoded task_id has a present
attachment. -/
def full_files : List (String × Option Bytes) :=
  [("cca530fc-4052-43b2-b130-b30968d8aa44", some [0]),
   ("99c9cc74-fdc8-46c6-8f8d-3ce2d3bfeea3", some [1]),
   ("f918266a-b3e0-4914-865d-4faa564f1aef", some [2]),
   ("1f975693-876d-457b-a649-393859e79bf3", some [3]),
   ("7bd855d8-463d-4ed5-93ca-5fe35145f733", some [4])]

/-- Claim C3 amended witness: at a concrete all-present dict the materializer
writes all five mapped files, and at the concrete scenario dict it raises. -/
theorem materialize_all_or_raise_witness :
    materialize full_files =
      Except.ok (file_names.map fun p => (p.2, bytesOf full_files p.1)) ∧
    ∃ e, materialize scenario_files = Except.error e :=
  ⟨(materialize_all_or_raise full_files).1 (by decide),
   (materialize_all_or_raise scenario_files).2 (by decide)⟩

/-- Outcome of the HTTP exchange inside fetch_questions (src/gaia_agent/api.py
lines 10-34): the GET or raise_for_status raises a RequestException
(transport or HTTP failure), response.json() raises a JSONDecodeError
(non-JSON or malformed body), or a question list is decoded. -/
inductive QuestionsResponse where
  | transportError (msg : String)
  | badJson (msg : String)
  | ok (qs : List Question)
deriving DecidableEq

/-- A Python value fetch_questions can return: the decoded question list, the
two-tuple (error string, None) returned from the RequestException handler, or
the bare None returned for an empty list (and from the JSONDecodeError
handler). -/
inductive FetchResult where
  | questionList (qs : List Question)
  | errorPair (msg : String)
  | nullResult
deriving DecidableEq

/-- fetch_questions from src/gaia_agent/api.py. The except
requests.exceptions.RequestException clause comes first, and
requests.exceptions.JSONDecodeError is a subclass of RequestException (via
InvalidJSONError), so both a transport failure and a malformed body raised by
response.json() land in that first handler and return the tuple
(f-string error message, None); the later JSONDecodeError handler is dead
code. An empty decoded list returns bare None; otherwise the decoded list is
returned. -/
def fetch_questions : QuestionsResponse → FetchResult
  | QuestionsResponse.transportError m =>
      FetchResult.errorPair ("Error fetching questions: " ++ m)
  | QuestionsResponse.badJson m =>
      FetchResult.errorPair ("Error fetching questions: " ++ m)
  | QuestionsResponse.ok [] => FetchResult.nullResult
  | QuestionsResponse.ok (q :: qs) => FetchResult.questionList (q :: qs)

/-- Claim C4 counterexample: a transport failure and a malformed-body failure
with the same exception message return the very same value (the same error
tuple), so the three failure conditions of fetch_questions are not mutually
distinguishable. -/
theorem fetch_failure_outcomes_counterexample :
    fetch_questions (QuestionsResponse.transportError "boom") =
      fetch_questions (QuestionsResponse.badJson "boom") ∧
    fetch_questions (QuestionsResponse.transportError "boom") =
      FetchResult.errorPair ("Error fetching questions: boom") :=
  ⟨rfl, rfl⟩

/-- Claim C4 as amended: fetch_questions yields only two distinguishable
outcomes across its three failure conditions: a transport failure and a
malformed response body are both caught by the first (RequestException)
handler and return the same tuple form (error message with None) — the very
same value when the exception messages coincide — while only the empty
question list returns the bare null result, which differs from every error
tuple. -/
theorem fetch_questions_two_outcomes (m m2 : String) :
    fetch_questions (QuestionsResponse.transportError m) =
      FetchResult.errorPair ("Error fetching questions: " ++ m) ∧
    fetch_questions (QuestionsResponse.badJson m2) =
      FetchResult.errorPair ("Error fetching questions: " ++ m2) ∧
    fetch_questions (QuestionsResponse.ok []) = FetchResult.nullResult ∧
    fetch_questions (QuestionsResponse.transportError m) ≠
      fetch_questions (QuestionsResponse.ok []) ∧
    fetch_questions (QuestionsResponse.badJson m2) ≠
      fetch_questions (QuestionsResponse.ok []) :=
  ⟨rfl, rfl, rfl, by simp [fetch_questions], by simp [fetch_questions]⟩

/-- A Python computation result: a returned value, or an uncaught exception
(flagged with whether it is a requests.RequestException). -/
inductive PyResult (α : Type) where
  | val (a : α)
  | exn (isRequestError : Bool) (msg : String)
deriving DecidableEq

/-- Outcome of the HTTP exchange inside get_file (src/gaia_agent/api.py lines
58-66): a 2xx response with the file bytes, a non-2xx status (HTTPError from
raise_for_status, e.g. a task with no stored file), or a transport
failure. -/
inductive FileResponse where
  | ok (content : Bytes)
  | httpError (code : Nat)
  | transportError (msg : String)
deriving DecidableEq

/-- The try block of get_file: requests.get then raise_for_status then
response.content. HTTPError and transport errors are both subclasses of
requests.RequestException, so both raise with the RequestException flag
set. -/
def get_file_try (r : FileResponse) : PyResult (Option Bytes) :=
  match r with
  | FileResponse.ok c => PyResult.val (some c)
  | FileResponse.httpError code => PyResult.exn true ("HTTP error " ++ toString code)
  | FileResponse.transportError m => PyResult.exn true m

/-- A try/except requests.RequestException block: a RequestException is
caught and replaced by the handler value; any other exception propagates. -/
def tryExceptRequestError {α : Type} (body : PyResult α) (handler : α) :
    PyResult α :=
  match body with
  | PyResult.val a => PyResult.val a
  | PyResult.exn true _ => PyResult.val handler
  | PyResult.exn false m => PyResult.exn false m

/-- get_file from src/gaia_agent/api.py: the try block wrapped in an except
requests.RequestException handler that returns None. -/
def get_file (r : FileResponse) : PyResult (Option Bytes) :=
  tryExceptRequestError (get_file_try r) none

/-- Claim C5: get_file returns the downloaded bytes on success and the absent
value (None) on every HTTP or transport error, and it never raises: on every
possible response its result is a returned value, not a propagated
exception. -/
theorem get_file_soft_failure (c : Bytes) (code : Nat) (m : String)
    (r : FileResponse) :
    get_file (FileResponse.ok c) = PyResult.val (some c) ∧
    get_file (FileResponse.httpError code) = PyResult.val none ∧
    get_file (FileResponse.transportError m) = PyResult.val none ∧
    ∃ v, get_file r = PyResult.val v := by
  refine ⟨rfl, rfl, rfl, ?_⟩
  cases r with
  | ok c2 => exact ⟨some c2, rfl⟩
  | httpError code2 => exact ⟨none, rfl⟩
  | transportError m2 => exact ⟨none, rfl⟩

/-- Outcome of the HTTP exchange inside submit_answers (src/gaia_agent/api.py
lines 37-55): a transport failure, a non-2xx status (e.g. HTTP 500 raising in
raise_for_status), a malformed JSON body, or a decoded score response. -/
inductive SubmitResponse where
  | transportError (msg : String)
  | httpError (code : Nat)
  | badJson (msg : String)
  | ok (score : Int) (message : String)
deriving DecidableEq

/-- A Python value submit_answers can return: the decoded score response dict
or the None returned by its except handlers. -/
inductive SubmitResult where
  | scoreResponse (score : Int) (message : String)
  | nullResult
deriving DecidableEq

/-- submit_answers from src/gaia_agent/api.py: returns the decoded score
response on success and None from every except handler (RequestException —
covering transport failures and HTTP errors such as 500 — and
JSONDecodeError). -/
def submit_answers : SubmitResponse → SubmitResult
  | SubmitResponse.transportError _ => SubmitResult.nullResult
  | SubmitResponse.httpError _ => SubmitResult.nullResult
  | SubmitResponse.badJson _ => SubmitResult.nullResult
  | SubmitResponse.ok s m => SubmitResult.scoreResponse s m

/-- Claim C9: on a failed submit call (HTTP 500, transport error, or a
malformed body) submit_answers returns the null result, which differs from
every successful score response — in particular it is never the response
carrying a score of zero. -/
theorem submit_failure_distinguishable (code : Nat) (m msg : String) (s : Int) :
    submit_answers (SubmitResponse.httpError code) = SubmitResult.nullResult ∧
    submit_answers (SubmitResponse.transportError m) = SubmitResult.nullResult ∧
    submit_answers (SubmitResponse.badJson m) = SubmitResult.nullResult ∧
    SubmitResult.nullResult ≠ SubmitResult.scoreResponse s msg ∧
    submit_answers (SubmitResponse.httpError code) ≠
      submit_answers (SubmitResponse.ok 0 msg) :=
  ⟨rfl, rfl, rfl, by simp, by simp [submit_answers]⟩

/-- What sys.stdout currently refers to: the process's original stream or the
fresh io.StringIO buffer installed by the capture. -/
inductive StdoutTarget where
  | original
  | buffer
deriving DecidableEq

/-- The stdout state of the process: the current sys.stdout binding, the
content already written to the original stream, and the content of the
StringIO buffer. -/
structure StdState where
  target : StdoutTarget
  original : List String
  buffer : List String
deriving DecidableEq

/-- Writing a sequence of strings through sys.stdout: they are appended to
whichever stream sys.stdout currently refers to. -/
def writeLines (s : StdState) (out : List String) : StdState :=
  match s.target with
  | StdoutTarget.original => { s with original := s.original ++ out }
  | StdoutTarget.buffer => { s with buffer := s.buffer ++ out }

/-- GAIAAgent.run from src/gaia_agent/agent.py (lines 44-63). The external
agent invocation is abstracted by what it writes to sys.stdout during the
call (loopOut) and by its completion (a response string, or a raised
exception message). With return_reasoning_process true the method saves the
old sys.stdout, installs a fresh empty buffer, runs the invocation inside a
try whose finally restores the old sys.stdout, and on normal completion
returns (response, buffer contents); otherwise it runs the invocation with
sys.stdout untouched and returns (response, empty string). An exception from
the invocation propagates after the finally runs. -/
def GAIAAgent.run (loopOut : List String) (loopRes : Except String String)
    (return_reasoning_process : Bool) (s : StdState) :
    PyResult (String × String) × StdState :=
  if return_reasoning_process then
    let old := s.target
    let s1 : StdState := { target := StdoutTarget.buffer, original := s.original,
                           buffer := [] }
    let s2 := writeLines s1 loopOut
    let s3 : StdState := { s2 with target := old }
    match loopRes with
    | Except.ok resp => (PyResult.val (resp, String.join s2.buffer), s3)
    | Except.error e => (PyResult.exn false e, s3)
  else
    let s2 := writeLines s loopOut
    match loopRes with
    | Except.ok resp => (PyResult.val (resp, ""), s2)
    | Except.error e => (PyResult.exn false e, s2)

/-- Claim C6: with return_reasoning_process false, GAIAAgent.run returns the
empty string as the reasoning text, whatever the external loop prints and
whatever the stdout state is. -/
theorem run_without_capture_empty_reasoning (loopOut : List String)
    (resp : String) (s : StdState) :
    (GAIAAgent.run loopOut (Except.ok resp) false s).1 =
      PyResult.val (resp, "") :=
  rfl

/-- Claim C7: with return_reasoning_process true, after GAIAAgent.run the
sys.stdout binding is back to its prior value — also when the invocation
raises — and nothing the loop emitted during the capture reached the
original stream. -/
theorem run_capture_restores_stdout (loopOut : List String)
    (loopRes : Except String String) (s : StdState) :
    (GAIAAgent.run loopOut loopRes true s).2.target = s.target ∧
    (GAIAAgent.run loopOut loopRes true s).2.original = s.original := by
  cases loopRes with
  | ok resp => exact ⟨rfl, rfl⟩
  | error e => exact ⟨rfl, rfl⟩

/-- The configuration document loaded from config.yaml: the keys the code
reads, each possibly missing. The temperature value is opaque to every claim
and is modelled as a string scalar. -/
structure AgentConfig where
  provider : Option String
  model_name : Option String
  temperature : Option String
  username : Option String
  agent_code : Option String
deriving DecidableEq

/-- The LLM client constructed by GAIAAgent.__init__. -/
inductive LLMProvider where
  | gemini
  | openai
deriving DecidableEq

/-- Outcome of GAIAAgent.__init__: a constructed agent (with its LLM client),
or the raised ValueError. -/
inductive InitResult where
  | ok (llm : LLMProvider)
  | valueError (msg : String)
deriving DecidableEq

/-- GAIAAgent.__init__ from src/gaia_agent/agent.py (lines 17-35):
config.get("provider", "") selects the LLM client; any provider other than
gemini or openai (including a missing key, read as the empty string) raises
ValueError with the f-string message naming that provider. -/
def GAIAAgent.construct (config : AgentConfig) : InitResult :=
  let provider := config.provider.getD ""
  if provider = "gemini" then InitResult.ok LLMProvider.gemini
  else if provider = "openai" then InitResult.ok LLMProvider.openai
  else InitResult.valueError ("Unsupported provider: " ++ provider)

/-- Claim C8: construction with a provider outside the closed set {gemini,
openai} (a missing key reads as the empty string) raises the configuration
error, whose message contains the invalid provider name; with a provider in
the set, construction never raises it. -/
theorem construct_unsupported_provider (config : AgentConfig) :
    ((config.provider.getD "") ≠ "gemini" ∧ (config.provider.getD "") ≠ "openai" →
      ∃ msg, GAIAAgent.construct config = InitResult.valueError msg ∧
        ∃ a b, msg = a ++ (config.provider.getD "") ++ b) ∧
    ((config.provider.getD "") = "gemini" ∨ (config.provider.getD "") = "openai" →
      ∀ msg, GAIAAgent.construct config ≠ InitResult.valueError msg) := by
  constructor
  · intro h
    refine ⟨"Unsupported provider: " ++ (config.provider.getD ""), ?_,
      "Unsupported provider: ", "", by simp⟩
    simp [GAIAAgent.construct, h.1, h.2]
  · intro h msg hcontra
    cases h with
    | inl h => simp [GAIAAgent.construct, h] at hcontra
    | inr h => simp [GAIAAgent.construct, h] at hcontra

/-- Claim C8 witness: the property at the concrete configuration with
provider unknown (raises, message mentions unknown) and at the concrete
gemini configuration (does not raise). -/
theorem construct_unsupported_provider_witness :
    (∃ msg, GAIAAgent.construct
        { provider := some "unknown", model_name := some "m",
          temperature := none, username := none, agent_code := none } =
        InitResult.valueError msg ∧ ∃ a b, msg = a ++ "unknown" ++ b) ∧
    GAIAAgent.construct
        { provider := some "gemini", model_name := some "m",
          temperature := none, username := none, agent_code := none } ≠
      InitResult.valueError "Unsupported provider: gemini" :=
  ⟨(construct_unsupported_provider _).1 (by decide),
   (construct_unsupported_provider
      { provider := some "gemini", model_name := some "m",
        temperature := none, username := none, agent_code := none }).2
     (Or.inl rfl) _⟩

/-- read_excel_file from src/gaia_agent/tools.py (lines 79-97): the file_name
parameter is immediately shadowed by the hardcoded "menu_items.xlsx"; the
filesystem is abstracted as a map from path to file content or a read error,
and pandas rendering of the sheet as a markdown table is abstracted as
toMarkdown. Any read error is downgraded to an error-message string. -/
def read_excel_file (fs : String → Except String String)
    (toMarkdown : String → String) (file_name : String) : String :=
  let file_name := "menu_items.xlsx"
  match fs ("files/" ++ file_name) with
  | Except.ok content => toMarkdown content
  | Except.error e => "Error: Failed to read the Excel file. Reason: " ++ e

/-- read_python_script from src/gaia_agent/tools.py (lines 100-117): the
file_name parameter is immediately shadowed by the hardcoded
"python_code.py"; the file's text is returned, and any read error is
downgraded to an error-message string. -/
def read_python_script (fs : String → Except String String)
    (file_name : String) : String :=
  let file_name := "python_code.py"
  match fs ("files/" ++ file_name) with
  | Except.ok code => code
  | Except.error e => "Error: Failed to read the Python script. Reason: " ++ e

/-- Claim C10: the two file-reading tools ignore their file_name argument —
on the same filesystem any two arguments give equal results — and each
result depends only on the one hardcoded path: two filesystems agreeing on
that path give equal results whatever the argument. -/
theorem file_tools_ignore_filename_argument
    (fs fs2 g g2 : String → Except String String)
    (toMarkdown : String → String) (a b : String)
    (hg : g "files/menu_items.xlsx" = fs "files/menu_items.xlsx")
    (hg2 : g2 "files/python_code.py" = fs2 "files/python_code.py") :
    read_excel_file fs toMarkdown a = read_excel_file fs toMarkdown b ∧
    read_python_script fs2 a = read_python_script fs2 b ∧
    read_excel_file g toMarkdown a = read_excel_file fs toMarkdown a ∧
    read_python_script g2 a = read_python_script fs2 a := by
  refine ⟨rfl, rfl, ?_, ?_⟩
  · simp [read_excel_file, hg]
  · simp [read_python_script, hg2]

/-- Claim C10 witness: the property at concrete argument strings and concrete
filesystem maps agreeing on the hardcoded paths. -/
theorem file_tools_ignore_filename_argument_witness :
    read_excel_file (fun p => Except.ok p) (fun c => c) "a.xlsx" =
      read_excel_file (fun p => Except.ok p) (fun c => c) "b.xlsx" ∧
    read_python_script (fun p => Except.ok p) "a.py" =
      read_python_script (fun p => Except.ok p) "b.py" ∧
    read_excel_file (fun p => Except.ok p) (fun c => c) "a.xlsx" =
      read_excel_file (fun p => Except.ok p) (fun c => c) "a.xlsx" ∧
    read_python_script (fun p => Except.ok p) "a.py" =
      read_python_script (fun p => Except.ok p) "a.py" :=
  file_tools_ignore_filename_argument (fun p => Except.ok p) (fun p => Except.ok p)
    (fun p => Except.ok p) (fun p => Except.ok p) (fun c => c) "a.xlsx" "b.xlsx"
    rfl rfl
